import Mathlib

/-!
Verification of the weather-server HTTP gateway (src/weather-server.go).

The Go program is shallowly embedded below.  Conventions:

* Go float64 values are modelled by exact rationals.  Every number the
  program actually computes on (integer temperatures, the literal
  thresholds, the Celsius conversion) is small enough that float64
  rounding never changes a comparison or a truncation result, so the
  rational model agrees with the float semantics on the whole range of
  interest.
* Go `int(x)` conversion truncates toward zero; `Int.div` has the same
  convention, so `int(float64(t)*9/5 + 32)` is embedded as
  `Int.div (9*t + 160) 5` (the two rational expressions are equal).
* Network I/O is modelled by a `FetchOutcome` oracle: what the HTTP
  client would observe for a call (transport error, or a status code
  together with a decode attempt of the body).
* `strconv.ParseFloat` is an external collaborator; it is modelled as an
  abstract parameter `parseF : String -> Option FloatVal`: `none` when
  ParseFloat reports a syntax error, otherwise the float64 it produced.
  A finite float64 is exactly a rational, so the finite case carries an
  exact rational; ParseFloat also accepts the special spellings "Inf",
  "Infinity" (possibly signed) and "NaN" case-insensitively as
  NON-ERROR results, so FloatVal keeps infinities and NaN as their own
  constructors, and the range comparisons follow IEEE-754 (every
  comparison with NaN is false, -Inf is below and +Inf above every
  bound).
* `log.Printf` output is modelled by returning a list of log lines next
  to the HTTP response.
* `r.URL.Query().Get` returns the empty string both for an absent and
  for an empty parameter, so an absent parameter is modelled by `""`.
-/

/-- One forecast period of the upstream payload (struct ForecastPeriod). -/
structure ForecastPeriod where
  Name : String
  IsDaytime : Bool
  Temperature : Int
  TemperatureUnit : String
  ShortForecast : String
  DetailedForecast : String
deriving DecidableEq

/-- struct Location. -/
structure Location where
  Lat : ℚ
  Lng : ℚ
deriving DecidableEq

/-- struct WeatherResponse (LastUpdated carries an opaque timestamp string). -/
structure WeatherResponse where
  Location : Location
  Forecast : String
  Temp : Int
  TempType : String
  Details : String
  LastUpdated : String
deriving DecidableEq

/-- struct ErrorResponse: the JSON error body written by sendError. -/
structure ErrorResponse where
  Error : String
  Message : String
deriving DecidableEq

/-- struct PointsResponse, flattened: only the nested properties.forecast
URL field is used by the program. -/
structure PointsResponse where
  Forecast : String
deriving DecidableEq

/-- struct ForecastResponse, flattened: only the nested
properties.periods list is used by the program. -/
structure ForecastResponse where
  Periods : List ForecastPeriod
deriving DecidableEq

/-- The error values produced with fmt.Errorf on the failure paths of
GetForecast / fetchForecast, one constructor per site. -/
inductive GoError where
  | createPointsRequest (msg : String)
  | fetchPointsFailed (msg : String)
  | pointsStatus (code : Nat)
  | decodePoints (msg : String)
  | noForecastURL
  | createForecastRequest (msg : String)
  | fetchForecastFailed (msg : String)
  | forecastStatus (code : Nat)
  | decodeForecast (msg : String)
  | noPeriods
deriving DecidableEq

/-- The message text of each error, as formatted by fmt.Errorf. -/
def GoError.message : GoError → String
  | .createPointsRequest m => "failed to create points request: " ++ m
  | .fetchPointsFailed m => "failed to fetch points data: " ++ m
  | .pointsStatus c => "NWS points API returned status " ++ toString c
  | .decodePoints m => "failed to decode points response: " ++ m
  | .noForecastURL => "no forecast URL available for this location"
  | .createForecastRequest m => "failed to create forecast request: " ++ m
  | .fetchForecastFailed m => "failed to fetch forecast data: " ++ m
  | .forecastStatus c => "NWS forecast API returned status " ++ toString c
  | .decodeForecast m => "failed to decode forecast response: " ++ m
  | .noPeriods => "no forecast periods available"

/-- What one outbound HTTP call observes: a transport failure from
httpClient.Do, or a status code with the result of decoding the body
(Except.error = json.Decoder.Decode failed). -/
inductive FetchOutcome (α : Type) where
  | netErr (msg : String)
  | resp (status : Nat) (body : Except String α)

/-- ASCII lowercasing, the behaviour of strings.ToLower on the ASCII
period names the program compares. -/
def toLowerStr (s : String) : String :=
  ⟨s.data.map Char.toLower⟩

/-- Substring containment on character lists (strings.Contains). -/
def listHasSub (sub : List Char) : List Char → Bool
  | [] => sub.isEmpty
  | c :: rest => sub.isPrefixOf (c :: rest) || listHasSub sub rest

/-- strings.Contains(strings.ToLower(name), "today"). -/
def hasTodaySub (name : String) : Bool :=
  listHasSub "today".data (toLowerStr name).data

/-- The period-selection loop of fetchForecast (lines 140-149): iterate
in order; when a period has a "today" name, or no period has been
selected yet and the period is daytime, select it and break. -/
def findTodayLoop (todayPeriod : Option ForecastPeriod) :
    List ForecastPeriod → Option ForecastPeriod
  | [] => todayPeriod
  | p :: rest =>
    if hasTodaySub p.Name || (todayPeriod.isNone && p.IsDaytime) then some p
    else findTodayLoop todayPeriod rest

/-- Period selection of fetchForecast: the loop, then the fallback to
the first period when the loop selected nothing and the list is
non-empty (lines 151-154); `none` means the nil-check on line 156 fails
the request. -/
def selectToday (periods : List ForecastPeriod) : Option ForecastPeriod :=
  match findTodayLoop none periods with
  | some p => some p
  | none => periods.head?

/-- The condition the loop tests while no period has been selected yet
(todayPeriod == nil holds throughout the loop because it breaks as soon
as it assigns). -/
def selPred (p : ForecastPeriod) : Bool :=
  hasTodaySub p.Name || p.IsDaytime

/-- Unit normalization (lines 161-164): `int(float64(t)*9/5 + 32)` when
the unit is exactly "C", the raw value otherwise.  Go int() truncates
toward zero, as does Int.tdiv; float64(t)*9/5 + 32 = (9*t + 160)/5
exactly. -/
def normalizeTemp (t : Int) (unit : String) : Int :=
  if unit = "C" then Int.tdiv (9 * t + 160) 5 else t

/-- getTempType (lines 179-188), over exact rationals. -/
def getTempType (temp : ℚ) : String :=
  if temp ≥ 89.5 then "hot"
  else if temp ≥ 60.8 then "moderate"
  else "cold"

/-- Assembly of the WeatherResponse for the selected period
(lines 160-175); `now` stands for the formatted time.Now() string. -/
def buildResponse (p : ForecastPeriod) (lat lon : ℚ) (now : String) :
    WeatherResponse :=
  let temperature := normalizeTemp p.Temperature p.TemperatureUnit
  { Location := ⟨lat, lon⟩
    Forecast := p.ShortForecast
    Temp := temperature
    TempType := getTempType (temperature : ℚ)
    Details := p.DetailedForecast
    LastUpdated := now }

/-- fetchForecast (lines 115-176) given the oracle for its one HTTP
call: transport error, non-200 status and decode failure each map to
their fmt.Errorf value; otherwise the period is selected, normalized
and classified. -/
def fetchForecast (outcome : FetchOutcome ForecastResponse)
    (lat lon : ℚ) (now : String) : Except GoError WeatherResponse :=
  match outcome with
  | .netErr m => .error (.fetchForecastFailed m)
  | .resp status body =>
    if status ≠ 200 then .error (.forecastStatus status)
    else
      match body with
      | .error m => .error (.decodeForecast m)
      | .ok fr =>
        match selectToday fr.Periods with
        | none => .error .noPeriods
        | some p => .ok (buildResponse p lat lon now)

/-- GetForecast (lines 76-112) given the oracles for its two HTTP
calls: the points call is checked first (transport, status, decode,
empty forecast URL), then fetchForecast runs on the second oracle. -/
def GetForecast (points : FetchOutcome PointsResponse)
    (forecast : FetchOutcome ForecastResponse)
    (lat lon : ℚ) (now : String) : Except GoError WeatherResponse :=
  match points with
  | .netErr m => .error (.fetchPointsFailed m)
  | .resp status body =>
    if status ≠ 200 then .error (.pointsStatus status)
    else
      match body with
      | .error m => .error (.decodePoints m)
      | .ok pr =>
        if pr.Forecast = "" then .error .noForecastURL
        else fetchForecast forecast lat lon now

/-- The HTTP response the handler writes: an error body with its status
code, or the serialized WeatherResponse. -/
inductive HResp where
  | err (status : Nat) (body : ErrorResponse)
  | ok (resp : WeatherResponse)
deriving DecidableEq

/-- Lines 236-241: a resolution failure is logged with its detail and
replaced by the generic 500 payload; success is serialized as-is. -/
def handleResolution (result : Except GoError WeatherResponse) :
    HResp × List String :=
  match result with
  | .error e =>
    (.err 500 ⟨"API error", "Could not get forecast"⟩,
      ["Forecast error: " ++ e.message])
  | .ok f => (.ok f, [])

/-- A float64 value as delivered by strconv.ParseFloat on success: a
finite value (exactly a rational), an infinity, or NaN.  ParseFloat
returns the last three for the special spellings "Inf"/"Infinity"
(possibly signed) and "NaN" without error. -/
inductive FloatVal where
  | finite (q : ℚ)
  | posInf
  | negInf
  | nan
deriving DecidableEq

/-- IEEE-754 `<` against a finite bound: false for NaN and +Inf, true
for -Inf, the exact rational comparison for finite values. -/
def floatLt (a : FloatVal) (c : ℚ) : Bool :=
  match a with
  | .finite q => decide (q < c)
  | .posInf => false
  | .negInf => true
  | .nan => false

/-- IEEE-754 `>` against a finite bound: false for NaN and -Inf, true
for +Inf, the exact rational comparison for finite values. -/
def floatGt (a : FloatVal) (c : ℚ) : Bool :=
  match a with
  | .finite q => decide (c < q)
  | .posInf => true
  | .negInf => false
  | .nan => false

/-- The range check of line 231,
`lat < -90 || lat > 90 || lon < -180 || lon > 180`, on float64
values. -/
def outOfRange (lat lon : FloatVal) : Bool :=
  floatLt lat (-90) || floatGt lat 90 || floatLt lon (-180) ||
    floatGt lon 180

/-- strconv.ParseFloat is external to the repository; this fixes its
documented behaviour on the concrete inputs the theorems below
exercise: "NaN" is accepted as NaN and "Inf" as positive infinity —
both non-error results — while a plain integer literal parses to its
exact value and anything else here is a syntax error. -/
def parseFloatSample : String → Option FloatVal
  | "NaN" => some .nan
  | "Inf" => some .posInf
  | "0" => some (.finite 0)
  | _ => none

/-- ServeHTTP (lines 203-246).  `parseF` models strconv.ParseFloat
(none = syntax error, some v = the float64 produced, finite or not);
`resolver` models weatherService.GetForecast; `latStr`/`lonStr` are the
query parameter values as returned by Query().Get ("" when absent).
The second component of the result is the log output. -/
def ServeHTTP (parseF : String → Option FloatVal)
    (resolver : FloatVal → FloatVal → Except GoError WeatherResponse)
    (method latStr lonStr : String) : HResp × List String :=
  if method ≠ "GET" then
    (.err 405 ⟨"Method not allowed", "Only GET supported"⟩, [])
  else if latStr = "" ∨ lonStr = "" then
    (.err 400 ⟨"Missing coords", "Need both lat and lon params"⟩, [])
  else
    match parseF latStr with
    | none => (.err 400 ⟨"Bad latitude", "Must be a number"⟩, [])
    | some lat =>
      match parseF lonStr with
      | none => (.err 400 ⟨"Bad longitude", "Must be a number"⟩, [])
      | some lon =>
        if outOfRange lat lon then
          (.err 400 ⟨"Invalid coords", "Check your lat/lon values"⟩, [])
        else
          handleResolution (resolver lat lon)

/-- Inside the selection loop `todayPeriod` is still `nil` (the loop
breaks as soon as it assigns), so the loop returns the first period
satisfying `selPred`. -/
theorem findTodayLoop_none_eq_find (l : List ForecastPeriod) :
    findTodayLoop none l = l.find? selPred := by
  induction l with
  | nil => rfl
  | cons p rest ih =>
    have hc : (hasTodaySub p.Name ||
        (Option.isNone (none : Option ForecastPeriod) && p.IsDaytime)) =
        selPred p := by
      simp [selPred]
    show (if hasTodaySub p.Name ||
        (Option.isNone (none : Option ForecastPeriod) && p.IsDaytime)
      then some p else findTodayLoop none rest) = _
    rw [hc]
    cases hp : selPred p with
    | true => rw [if_pos rfl, List.find?_cons_of_pos _ hp]
    | false =>
      rw [if_neg (by simp), List.find?_cons_of_neg _ (by simp [hp]), ih]

/-- Claim C1 (counterexample): with a daytime period listed before a
period named "Today", the code selects the earlier daytime period, not
the "Today" one — the daytime period is not a mere fallback, the loop
breaks on it. -/
theorem selection_daytime_shadows_today_cex :
    hasTodaySub "This Afternoon" = false ∧
    (⟨"This Afternoon", true, 70, "F", "Sunny", "d"⟩ :
      ForecastPeriod).IsDaytime = true ∧
    hasTodaySub "Today" = true ∧
    selectToday [⟨"This Afternoon", true, 70, "F", "Sunny", "d"⟩,
        ⟨"Today", true, 60, "F", "Rain", "d"⟩] =
      some ⟨"This Afternoon", true, 70, "F", "Sunny", "d"⟩ ∧
    selectToday [⟨"This Afternoon", true, 70, "F", "Sunny", "d"⟩,
        ⟨"Today", true, 60, "F", "Rain", "d"⟩] ≠
      some ⟨"Today", true, 60, "F", "Rain", "d"⟩ := by
  decide

/-- Claim C1 (amended): the scan selects the first period that is
"today"-named OR flagged daytime, whichever occurs first — an earlier
daytime period is selected immediately rather than remembered as a
fallback; only when no period matches either test does the fallback to
the head of the list apply. -/
theorem selectToday_eq_find_or_head (l : List ForecastPeriod) :
    selectToday l = (l.find? selPred).elim l.head? some := by
  unfold selectToday
  rw [findTodayLoop_none_eq_find]
  cases l.find? selPred <;> rfl

/-- Claim C4: the classifier is a total function over all inputs,
returning hot at and above 89.5, moderate on [60.8, 89.5), cold below
60.8; the four boundary probes land on the documented side. -/
theorem getTempType_spec (t : ℚ) :
    (89.5 ≤ t → getTempType t = "hot") ∧
    (60.8 ≤ t → t < 89.5 → getTempType t = "moderate") ∧
    (t < 60.8 → getTempType t = "cold") ∧
    getTempType 89.5 = "hot" ∧ getTempType 89.4999 = "moderate" ∧
    getTempType 60.8 = "moderate" ∧ getTempType 60.7999 = "cold" := by
  refine ⟨fun h => ?_, fun h1 h2 => ?_, fun h => ?_,
    by norm_num [getTempType], by norm_num [getTempType],
    by norm_num [getTempType], by norm_num [getTempType]⟩
  · rw [getTempType, if_pos h]
  · rw [getTempType, if_neg (not_le.mpr h2), if_pos h1]
  · rw [getTempType, if_neg (not_le.mpr (lt_of_lt_of_le h (by norm_num))),
      if_neg (not_le.mpr h)]

/-- Concrete probes for the classifier bucket theorem. -/
theorem getTempType_spec_witness :
    getTempType 100 = "hot" ∧ getTempType 70 = "moderate" ∧
    getTempType 0 = "cold" :=
  ⟨(getTempType_spec 100).1 (by norm_num),
   (getTempType_spec 70).2.1 (by norm_num) (by norm_num),
   (getTempType_spec 0).2.2.1 (by norm_num)⟩

/-- On an integer input the rational thresholds collapse to the integer
thresholds 90 and 61. -/
theorem getTempType_intCast (n : ℤ) :
    getTempType (n : ℚ) =
      if 90 ≤ n then "hot" else if 61 ≤ n then "moderate" else "cold" := by
  have h1 : ((89.5 : ℚ) ≤ (n : ℚ)) ↔ 90 ≤ n := by
    rw [show (89.5 : ℚ) = 179 / 2 by norm_num,
      div_le_iff₀ (by norm_num : (0 : ℚ) < 2)]
    constructor
    · intro h
      have : (179 : ℤ) ≤ n * 2 := by exact_mod_cast h
      omega
    · intro h
      have : (179 : ℤ) ≤ n * 2 := by omega
      exact_mod_cast this
  have h2 : ((60.8 : ℚ) ≤ (n : ℚ)) ↔ 61 ≤ n := by
    rw [show (60.8 : ℚ) = 304 / 5 by norm_num,
      div_le_iff₀ (by norm_num : (0 : ℚ) < 5)]
    constructor
    · intro h
      have : (304 : ℤ) ≤ n * 5 := by exact_mod_cast h
      omega
    · intro h
      have : (304 : ℤ) ≤ n * 5 := by omega
      exact_mod_cast this
  rw [getTempType]
  simp only [ge_iff_le, h1, h2]

/-- Claim C9: every successful resolution classifies the integer
normalized temperature, so at the interface the buckets are exactly
temp_f at or above 90 = hot, 61 to 89 = moderate, at most 60 = cold. -/
theorem fetchForecast_integer_classification
    (o : FetchOutcome ForecastResponse) (lat lon : ℚ) (now : String)
    (r : WeatherResponse) (h : fetchForecast o lat lon now = .ok r) :
    (r.TempType = "hot" ↔ 90 ≤ r.Temp) ∧
    (r.TempType = "moderate" ↔ 61 ≤ r.Temp ∧ r.Temp ≤ 89) ∧
    (r.TempType = "cold" ↔ r.Temp ≤ 60) := by
  obtain ⟨p, rfl⟩ : ∃ p, r = buildResponse p lat lon now := by
    cases o with
    | netErr m => exact absurd h (by simp [fetchForecast])
    | resp status body =>
      cases body with
      | error m =>
        by_cases hs : status = 200
        · subst hs
          exact absurd h (by simp [fetchForecast])
        · exact absurd h (by simp [fetchForecast, hs])
      | ok fr =>
        by_cases hs : status = 200
        · subst hs
          rcases hsel : selectToday fr.Periods with _ | p
          · exact absurd h (by simp [fetchForecast, hsel])
          · refine ⟨p, ?_⟩
            have hh := h
            simp [fetchForecast, hsel] at hh
            exact hh.symm
        · exact absurd h (by simp [fetchForecast, hs])
  have htype : (buildResponse p lat lon now).TempType =
      getTempType (((buildResponse p lat lon now).Temp : ℤ) : ℚ) := rfl
  rw [htype, getTempType_intCast]
  set t := (buildResponse p lat lon now).Temp with ht
  by_cases h90 : 90 ≤ t
  · rw [if_pos h90]
    exact ⟨⟨fun _ => h90, fun _ => rfl⟩,
      ⟨fun hc => absurd hc (by decide), fun hc => absurd hc (by omega)⟩,
      ⟨fun hc => absurd hc (by decide), fun hc => absurd hc (by omega)⟩⟩
  · rw [if_neg h90]
    by_cases h61 : 61 ≤ t
    · rw [if_pos h61]
      exact ⟨⟨fun hc => absurd hc (by decide), fun hc => absurd hc h90⟩,
        ⟨fun _ => ⟨h61, by omega⟩, fun _ => rfl⟩,
        ⟨fun hc => absurd hc (by decide), fun hc => absurd hc (by omega)⟩⟩
    · rw [if_neg h61]
      exact ⟨⟨fun hc => absurd hc (by decide), fun hc => absurd hc h90⟩,
        ⟨fun hc => absurd hc (by decide), fun hc => absurd hc.1 h61⟩,
        ⟨fun _ => by omega, fun _ => rfl⟩⟩

/-- A sample period and the response the program builds from it, used
to exercise the integer-interface classification theorem. -/
def samplePeriod : ForecastPeriod :=
  ⟨"Today", true, 70, "F", "Sunny", "d"⟩

/-- The WeatherResponse assembled from samplePeriod at the origin. -/
def sampleResponse : WeatherResponse :=
  buildResponse samplePeriod 0 0 "t"

/-- Concrete run of the integer-interface classification theorem. -/
theorem fetchForecast_integer_classification_witness :
    (sampleResponse.TempType = "hot" ↔ 90 ≤ sampleResponse.Temp) ∧
    (sampleResponse.TempType = "moderate" ↔
      61 ≤ sampleResponse.Temp ∧ sampleResponse.Temp ≤ 89) ∧
    (sampleResponse.TempType = "cold" ↔ sampleResponse.Temp ≤ 60) :=
  fetchForecast_integer_classification
    (.resp 200 (.ok ⟨[samplePeriod]⟩)) 0 0 "t" sampleResponse rfl

/-- Claim C10: unit normalization fires only on the exact string "C";
any other unit string leaves the temperature unchanged. -/
theorem normalizeTemp_non_celsius (t : ℤ) (u : String) (h : u ≠ "C") :
    normalizeTemp t u = t := by
  rw [normalizeTemp, if_neg h]

/-- Concrete non-"C" unit strings pass through unchanged. -/
theorem normalizeTemp_non_celsius_witness :
    normalizeTemp 20 "c" = 20 ∧ normalizeTemp 20 "celsius" = 20 ∧
    normalizeTemp 20 "" = 20 ∧ normalizeTemp 20 "F" = 20 :=
  ⟨normalizeTemp_non_celsius 20 "c" (by decide),
   normalizeTemp_non_celsius 20 "celsius" (by decide),
   normalizeTemp_non_celsius 20 "" (by decide),
   normalizeTemp_non_celsius 20 "F" (by decide)⟩

/-- Claim C2 (counterexample): at Celsius temperature 1 the code
truncates 33.8 to 33, while rounding to the nearest integer gives 34 —
the conversion is not round-to-nearest. -/
theorem celsius_not_rounded_cex :
    normalizeTemp 1 "C" = 33 ∧ round ((1 : ℚ) * 9 / 5 + 32) = 34 ∧
    (normalizeTemp 1 "C" : ℤ) ≠ round ((1 : ℚ) * 9 / 5 + 32) := by
  have h1 : normalizeTemp 1 "C" = 33 := by decide
  have h2 : round ((1 : ℚ) * 9 / 5 + 32) = 34 := by
    rw [round_eq]
    norm_num
  refine ⟨h1, h2, ?_⟩
  rw [h1, h2]
  decide

/-- Claim C2 (amended): for Celsius input the code computes the
truncation toward zero of C * 9/5 + 32 (the floor, once the argument is
nonnegative), not the nearest integer; C = 20 still yields exactly 68,
classified moderate, and any non-Celsius unit passes through
unchanged. -/
theorem normalizeTemp_celsius_spec (c : ℤ) (h : 0 ≤ 9 * c + 160) :
    normalizeTemp c "C" = ⌊(c : ℚ) * 9 / 5 + 32⌋ ∧
    normalizeTemp 20 "C" = 68 ∧
    getTempType ((68 : ℤ) : ℚ) = "moderate" ∧
    ∀ u : String, u ≠ "C" → ∀ t : ℤ, normalizeTemp t u = t := by
  refine ⟨?_, by decide, by norm_num [getTempType],
    fun u hu t => by rw [normalizeTemp, if_neg hu]⟩
  have key : ⌊((9 * c + 160 : ℤ) : ℚ) / ((5 : ℕ) : ℚ)⌋ =
      (9 * c + 160) / ((5 : ℕ) : ℤ) :=
    Rat.floor_intCast_div_natCast (9 * c + 160) 5
  have harg : (c : ℚ) * 9 / 5 + 32 = ((9 * c + 160 : ℤ) : ℚ) / ((5 : ℕ) : ℚ) := by
    push_cast
    ring
  rw [normalizeTemp, if_pos rfl, harg, key,
    Int.tdiv_eq_ediv h (by norm_num)]
  norm_num

/-- For finite coordinates the float64 range check is the exact
rational range check of the original condition. -/
theorem outOfRange_finite (lat lon : ℚ) :
    outOfRange (.finite lat) (.finite lon) =
      decide (lat < -90 ∨ lat > 90 ∨ lon < -180 ∨ lon > 180) := by
  simp only [outOfRange, floatLt, floatGt, Bool.decide_or, Bool.or_assoc,
    gt_iff_lt]

/-- Once the method is GET, both parameters are non-empty, both parse
to finite values, and the coordinates pass the range check, the handler
hands the request to the resolver and returns handleResolution of its
result. -/
theorem ServeHTTP_reaches_resolver (parseF : String → Option FloatVal)
    (resolver : FloatVal → FloatVal → Except GoError WeatherResponse)
    (latStr lonStr : String) (lat lon : ℚ)
    (hla : latStr ≠ "") (hlo : lonStr ≠ "")
    (hpl : parseF latStr = some (.finite lat))
    (hpo : parseF lonStr = some (.finite lon))
    (hin : ¬(lat < -90 ∨ lat > 90 ∨ lon < -180 ∨ lon > 180)) :
    ServeHTTP parseF resolver "GET" latStr lonStr =
      handleResolution (resolver (.finite lat) (.finite lon)) := by
  have hb : outOfRange (.finite lat) (.finite lon) = false :=
    (outOfRange_finite lat lon).trans (decide_eq_false hin)
  rw [ServeHTTP, if_neg (by simp), if_neg (not_or.mpr ⟨hla, hlo⟩), hpl, hpo]
  exact if_neg (by simp [hb])

/-- Claim C8: an absent lat or lon parameter (Query().Get returns "")
yields the "Missing coords" 400 error no matter what the other
parameter holds, before any parsing, range check or resolver call — the
result does not depend on parseF or on the resolver at all. -/
theorem missing_param_spec (parseF : String → Option FloatVal)
    (resolver : FloatVal → FloatVal → Except GoError WeatherResponse)
    (latStr lonStr : String) (h : latStr = "" ∨ lonStr = "") :
    ServeHTTP parseF resolver "GET" latStr lonStr =
      (.err 400 ⟨"Missing coords", "Need both lat and lon params"⟩, []) := by
  rw [ServeHTTP, if_neg (by simp), if_pos h]

/-- Concrete request with an absent lat parameter. -/
theorem missing_param_spec_witness :
    ServeHTTP (fun _ => some (.finite 0))
      (fun _ _ => Except.error GoError.noPeriods) "GET" "" "5" =
      (.err 400 ⟨"Missing coords", "Need both lat and lon params"⟩, []) :=
  missing_param_spec (fun _ => some (.finite 0))
    (fun _ _ => Except.error GoError.noPeriods) "" "5" (Or.inl rfl)

/-- Claim C3 (counterexample): ParseFloat accepts "NaN" and "Inf"
without error although neither is a finite decimal number, so at
lat="NaN" the handler does not return the Bad latitude error and its
outcome depends on the resolver — the resolver IS invoked (NaN fails
every range comparison) — while lat="Inf" is reported as Invalid
coords, not Bad latitude. -/
theorem parse_nonfinite_cex :
    parseFloatSample "NaN" = some FloatVal.nan ∧
    parseFloatSample "Inf" = some FloatVal.posInf ∧
    ServeHTTP parseFloatSample (fun _ _ => Except.error GoError.noPeriods)
        "GET" "NaN" "0" ≠
      (.err 400 ⟨"Bad latitude", "Must be a number"⟩, []) ∧
    ServeHTTP parseFloatSample (fun _ _ => Except.error GoError.noPeriods)
        "GET" "NaN" "0" ≠
      ServeHTTP parseFloatSample
        (fun _ _ => Except.error GoError.noForecastURL) "GET" "NaN" "0" ∧
    ServeHTTP parseFloatSample (fun _ _ => Except.error GoError.noPeriods)
        "GET" "Inf" "0" =
      (.err 400 ⟨"Invalid coords", "Check your lat/lon values"⟩, []) := by
  decide

/-- Claim C3 (amended): a lat or lon value that ParseFloat rejects
yields the Bad latitude / Bad longitude 400, with a result independent
of the resolver; but the non-finite spellings ParseFloat accepts are
not caught by the parse stage: an infinite latitude falls through to
the range check and is reported as Invalid coords, and a NaN latitude
passes every range comparison and reaches the resolver. -/
theorem parseFloat_boundary_spec (parseF : String → Option FloatVal)
    (resolver : FloatVal → FloatVal → Except GoError WeatherResponse)
    (latStr lonStr : String) (hla : latStr ≠ "") (hlo : lonStr ≠ "") :
    (parseF latStr = none →
      ServeHTTP parseF resolver "GET" latStr lonStr =
        (.err 400 ⟨"Bad latitude", "Must be a number"⟩, [])) ∧
    (∀ v, parseF latStr = some v → parseF lonStr = none →
      ServeHTTP parseF resolver "GET" latStr lonStr =
        (.err 400 ⟨"Bad longitude", "Must be a number"⟩, [])) ∧
    (∀ w, parseF latStr = some FloatVal.posInf → parseF lonStr = some w →
      ServeHTTP parseF resolver "GET" latStr lonStr =
        (.err 400 ⟨"Invalid coords", "Check your lat/lon values"⟩, [])) ∧
    (∀ lon, parseF latStr = some FloatVal.nan →
      parseF lonStr = some (FloatVal.finite lon) →
      -180 ≤ lon → lon ≤ 180 →
      ServeHTTP parseF resolver "GET" latStr lonStr =
        handleResolution (resolver FloatVal.nan (FloatVal.finite lon))) := by
  refine ⟨fun hn => ?_, fun v hl hn => ?_, fun w hl hw => ?_,
    fun lon hl hw h1 h2 => ?_⟩
  · rw [ServeHTTP, if_neg (by simp), if_neg (not_or.mpr ⟨hla, hlo⟩), hn]
  · rw [ServeHTTP, if_neg (by simp), if_neg (not_or.mpr ⟨hla, hlo⟩), hl, hn]
  · rw [ServeHTTP, if_neg (by simp), if_neg (not_or.mpr ⟨hla, hlo⟩), hl, hw]
    exact if_pos (by simp [outOfRange, floatLt, floatGt])
  · rw [ServeHTTP, if_neg (by simp), if_neg (not_or.mpr ⟨hla, hlo⟩), hl, hw]
    have hb : outOfRange FloatVal.nan (FloatVal.finite lon) = false := by
      simp [outOfRange, floatLt, floatGt, not_lt.mpr h1, not_lt.mpr h2]
    exact if_neg (by simp [hb])

/-- Concrete runs of the amended parse-boundary theorem: a rejected
latitude string gets the Bad latitude error, and the accepted
non-finite "NaN" latitude reaches the resolver. -/
theorem parseFloat_boundary_spec_witness :
    ServeHTTP parseFloatSample (fun _ _ => Except.error GoError.noPeriods)
      "GET" "abc" "0" =
      (.err 400 ⟨"Bad latitude", "Must be a number"⟩, []) ∧
    ServeHTTP parseFloatSample (fun _ _ => Except.error GoError.noPeriods)
      "GET" "NaN" "0" =
      handleResolution
        ((fun _ _ => Except.error GoError.noPeriods) FloatVal.nan
          (FloatVal.finite 0)) :=
  ⟨(parseFloat_boundary_spec parseFloatSample
      (fun _ _ => Except.error GoError.noPeriods) "abc" "0"
      (by decide) (by decide)).1 rfl,
   (parseFloat_boundary_spec parseFloatSample
      (fun _ _ => Except.error GoError.noPeriods) "NaN" "0"
      (by decide) (by decide)).2.2.2 0 rfl rfl (by norm_num) (by norm_num)⟩

/-- Claim C5: a parsed finite latitude outside [-90, 90] or longitude
outside [-180, 180] yields the "Invalid coords" 400 error with the same
result for every resolver, while coordinates inside the ranges — the
bounds included — reach the resolver. -/
theorem range_validation_spec (parseF : String → Option FloatVal)
    (resolver : FloatVal → FloatVal → Except GoError WeatherResponse)
    (latStr lonStr : String) (lat lon : ℚ)
    (hla : latStr ≠ "") (hlo : lonStr ≠ "")
    (hpl : parseF latStr = some (.finite lat))
    (hpo : parseF lonStr = some (.finite lon)) :
    ((lat < -90 ∨ lat > 90 ∨ lon < -180 ∨ lon > 180) →
      ServeHTTP parseF resolver "GET" latStr lonStr =
        (.err 400 ⟨"Invalid coords", "Check your lat/lon values"⟩, [])) ∧
    (-90 ≤ lat → lat ≤ 90 → -180 ≤ lon → lon ≤ 180 →
      ServeHTTP parseF resolver "GET" latStr lonStr =
        handleResolution (resolver (.finite lat) (.finite lon))) := by
  constructor
  · intro hout
    rw [ServeHTTP, if_neg (by simp), if_neg (not_or.mpr ⟨hla, hlo⟩), hpl, hpo]
    exact if_pos ((outOfRange_finite lat lon).trans (decide_eq_true hout))
  · intro h1 h2 h3 h4
    exact ServeHTTP_reaches_resolver parseF resolver latStr lonStr lat lon
      hla hlo hpl hpo
      (by push_neg; exact ⟨h1, h2, h3, h4⟩)

/-- Concrete out-of-range latitude 91 is rejected while the exact
bounds lat = 90, lon = 180 are accepted and reach the resolver. -/
theorem range_validation_spec_witness :
    ServeHTTP (fun s => if s = "91" then some (.finite 91)
        else some (.finite 0))
      (fun _ _ => Except.error GoError.noPeriods) "GET" "91" "0" =
      (.err 400 ⟨"Invalid coords", "Check your lat/lon values"⟩, []) ∧
    ServeHTTP (fun s => if s = "90" then some (.finite 90)
        else some (.finite 180))
      (fun _ _ => Except.error GoError.noPeriods) "GET" "90" "180" =
      handleResolution
        ((fun _ _ => Except.error GoError.noPeriods)
          (FloatVal.finite 90) (FloatVal.finite 180)) :=
  ⟨(range_validation_spec
      (fun s => if s = "91" then some (.finite 91) else some (.finite 0))
      (fun _ _ => Except.error GoError.noPeriods) "91" "0" 91 0
      (by decide) (by decide) rfl rfl).1 (Or.inr (Or.inl (by norm_num))),
   (range_validation_spec
      (fun s => if s = "90" then some (.finite 90) else some (.finite 180))
      (fun _ _ => Except.error GoError.noPeriods) "90" "180" 90 180
      (by decide) (by decide) rfl rfl).2
      (by norm_num) (by norm_num) (by norm_num) (by norm_num)⟩

/-- Claim C6: whatever error the resolver fails with — transport
failure, bad status, malformed body at either upstream step, or the
empty period list — the caller always receives the one generic 500
payload, whose strings do not depend on the error; the error detail
appears only in the log line. -/
theorem resolver_failure_generic (parseF : String → Option FloatVal)
    (resolver : FloatVal → FloatVal → Except GoError WeatherResponse)
    (latStr lonStr : String) (lat lon : ℚ) (e : GoError)
    (hla : latStr ≠ "") (hlo : lonStr ≠ "")
    (hpl : parseF latStr = some (.finite lat))
    (hpo : parseF lonStr = some (.finite lon))
    (hin : ¬(lat < -90 ∨ lat > 90 ∨ lon < -180 ∨ lon > 180))
    (hres : resolver (.finite lat) (.finite lon) = .error e) :
    ServeHTTP parseF resolver "GET" latStr lonStr =
      (.err 500 ⟨"API error", "Could not get forecast"⟩,
        ["Forecast error: " ++ e.message]) := by
  rw [ServeHTTP_reaches_resolver parseF resolver latStr lonStr lat lon
    hla hlo hpl hpo hin, hres]
  rfl

/-- Concrete upstream bad-status failure surfaced as the generic
payload with the detail only in the log. -/
theorem resolver_failure_generic_witness :
    ServeHTTP (fun _ => some (.finite 10))
      (fun _ _ => Except.error (GoError.pointsStatus 503)) "GET" "10" "10" =
      (.err 500 ⟨"API error", "Could not get forecast"⟩,
        ["Forecast error: " ++ (GoError.pointsStatus 503).message]) :=
  resolver_failure_generic (fun _ => some (.finite 10))
    (fun _ _ => Except.error (GoError.pointsStatus 503)) "10" "10" 10 10
    (GoError.pointsStatus 503) (by decide) (by decide) rfl rfl
    (by norm_num) rfl

/-- Claim C7: when no period is "today"-named and none is daytime, the
selection falls back to the head of the list; on the empty list
fetchForecast fails with the no-periods error, and that failure is
surfaced to the caller as the generic message while the specific kind
is logged. -/
theorem no_today_no_daytime_spec (l : List ForecastPeriod) (lat lon : ℚ)
    (now : String)
    (h : ∀ p ∈ l, hasTodaySub p.Name = false ∧ p.IsDaytime = false) :
    selectToday l = l.head? ∧
    fetchForecast (.resp 200 (.ok ⟨[]⟩)) lat lon now =
      Except.error GoError.noPeriods ∧
    (∀ (parseF : String → Option FloatVal)
      (resolver : FloatVal → FloatVal → Except GoError WeatherResponse)
      (latStr lonStr : String), latStr ≠ "" → lonStr ≠ "" →
      parseF latStr = some (.finite lat) →
      parseF lonStr = some (.finite lon) →
      ¬(lat < -90 ∨ lat > 90 ∨ lon < -180 ∨ lon > 180) →
      resolver (.finite lat) (.finite lon) =
        Except.error GoError.noPeriods →
      ServeHTTP parseF resolver "GET" latStr lonStr =
        (.err 500 ⟨"API error", "Could not get forecast"⟩,
          ["Forecast error: no forecast periods available"])) := by
  refine ⟨?_, rfl, ?_⟩
  · have hf : l.find? selPred = none := by
      rw [List.find?_eq_none]
      intro p hp
      simp [selPred, (h p hp).1, (h p hp).2]
    unfold selectToday
    rw [findTodayLoop_none_eq_find, hf]
  · intro parseF resolver latStr lonStr hla hlo hpl hpo hin hres
    rw [ServeHTTP_reaches_resolver parseF resolver latStr lonStr lat lon
      hla hlo hpl hpo hin, hres]
    rfl

/-- Concrete list with a single night period: its head is selected; the
empty list fails with the no-periods error. -/
theorem no_today_no_daytime_spec_witness :
    selectToday [⟨"Tonight", false, 50, "F", "Clear", "d"⟩] =
      some ⟨"Tonight", false, 50, "F", "Clear", "d"⟩ ∧
    fetchForecast (.resp 200 (.ok ⟨[]⟩)) 1 2 "t" =
      Except.error GoError.noPeriods := by
  have h := no_today_no_daytime_spec
    [⟨"Tonight", false, 50, "F", "Clear", "d"⟩] 1 2 "t" (by decide)
  exact ⟨h.1, h.2.1⟩

/-- Concrete run of the amended Celsius conversion at C = 20, plus a
non-Celsius pass-through. -/
theorem normalizeTemp_celsius_spec_witness :
    normalizeTemp 20 "C" = ⌊((20 : ℤ) : ℚ) * 9 / 5 + 32⌋ ∧
    normalizeTemp 25 "celsius" = 25 :=
  ⟨(normalizeTemp_celsius_spec 20 (by norm_num)).1,
   (normalizeTemp_celsius_spec 20 (by norm_num)).2.2.2 "celsius"
     (by decide) 25⟩
